import Mathlib

/-!
Shallow embedding of the Session Pairing Orchestrator of this repository
(`src/pages/api/session.js`, `src/unnamed/part_000` = `api/session-status/[sessionId].js`,
and the sessions-list handler `api/sessions.js` at the top of `src/pages/api/session.js`).

Modelling conventions:
* The JS `Map` `global.activeSessions` is an association list `List (String × SessionRecord)`
  with `Map.get`/`Map.set` semantics (`registryGet`, `registrySet`: replace the first binding
  in place, else append — JS `Map` keys are unique so first-binding replacement is exact).
* The local filesystem is modelled as the list of existing staging-directory paths (`fsDirs`);
  directory contents only matter to the upload sequence, which receives them explicitly.
* External collaborators (the Baileys socket, Octokit, the filesystem reads) are modelled by
  explicit outcome parameters: `PairingEnv` carries the results of `useMultiFileAuthState` /
  `makeWASocket` and `sock.requestPairingCode`; `UploadEnv` carries the directory listing and
  a per-path outcome oracle for `createOrUpdateFileContents`.
* `session.status` takes only the string values this code ever writes
  (`"waiting" | "connected" | "disconnected"`), modelled as an inductive type.
* `DisconnectReason.loggedOut` is the constant 401 from the external Baileys library; the code
  only compares `lastDisconnect?.error?.output?.statusCode` against it for (in)equality.
-/

namespace Web2

/-- The status strings written by `session.js`: `"waiting"`, `"connected"`, `"disconnected"`. -/
inductive SessionStatus
  | waiting
  | connected
  | disconnected
deriving DecidableEq, Repr

/-- One entry of `global.activeSessions` (the fields written by `startPairing` and its
`connection.update` callback; the live `sock`/`saveCreds` handles are external and carry
no state the claims mention). `connectedAt = none` / `githubUrl = none` model the
JS `undefined` of a field never assigned. -/
structure SessionRecord where
  phoneNumber : String
  status : SessionStatus
  connectedAt : Option Nat
  githubUrl : Option String
  sessionPath : String
deriving DecidableEq, Repr

/-- Registry lookup, i.e. `global.activeSessions.get k`, on the association-list model. -/
def registryGet : List (String × SessionRecord) → String → Option SessionRecord
  | [], _ => none
  | e :: t, k => if e.1 = k then some e.2 else registryGet t k

/-- Registry write, i.e. `global.activeSessions.set k v`: replace the first binding of `k` in place
(JS `Map` keys are unique), else append in insertion order. -/
def registrySet : List (String × SessionRecord) → String → SessionRecord →
    List (String × SessionRecord)
  | [], k, v => [(k, v)]
  | e :: t, k, v => if e.1 = k then (k, v) :: t else e :: registrySet t k v

/-- Process state: the session registry plus the set of existing local staging
directories (`/tmp/sessions/<phoneNumber>`). -/
structure World where
  registry : List (String × SessionRecord)
  fsDirs : List String
deriving DecidableEq, Repr

/-- The constant `DisconnectReason.loggedOut` of the external Baileys library (numeric value 401);
the source only tests `statusCode !== DisconnectReason.loggedOut`. -/
def loggedOutStatusCode : Nat := 401

/-- A `connection.update` event: `connection === "open"`, or `connection === "close"`
carrying `lastDisconnect?.error?.output?.statusCode` (`none` models any missing link
of that optional chain, which compares unequal to `loggedOutStatusCode` in JS). -/
inductive ConnectionUpdate
  | connOpen
  | connClose (statusCode : Option Nat)
deriving DecidableEq, Repr

/-- The `connection.update` callback registered by `startPairing` (session.js lines 157-189).
`sessionId`/`sessionPath` are the closure captures; `now` is `Date.now()` at the `open`
event; `uploadResult` is the awaited outcome of `uploadSessionToGithub` (its error is
caught and only logged). If the registry has no entry (the callback would dereference
`undefined`) the model leaves the world unchanged; every claim below supplies the entry. -/
def connectionUpdateHandler (sessionId sessionPath : String) (now : Nat)
    (uploadResult : Except String String) (update : ConnectionUpdate) (w : World) : World :=
  match update with
  | .connOpen =>
    match registryGet w.registry sessionId with
    | none => w
    | some session =>
      let session := { session with status := .connected, connectedAt := some now }
      let session :=
        match uploadResult with
        | .ok url => { session with githubUrl := some url }
        | .error _ => session
      { w with registry := registrySet w.registry sessionId session }
  | .connClose statusCode =>
    -- shouldReconnect = lastDisconnect?.error?.output?.statusCode !== DisconnectReason.loggedOut
    if statusCode ≠ some loggedOutStatusCode then
      w
    else
      match registryGet w.registry sessionId with
      | none => w
      | some session =>
        let session := { session with status := .disconnected }
        { registry := registrySet w.registry sessionId session,
          fsDirs := w.fsDirs.filter (fun p => p ≠ sessionPath) }

/-- The regex call `code.match(/.{1,4}/g)`: split a character list into maximal groups of at most
4 characters (`.` matches every pairing-code character; the regex is greedy, so only
the last group may be shorter than 4). -/
def chunksOfFour : List Char → List (List Char)
  | [] => []
  | [a] => [[a]]
  | [a, b] => [[a, b]]
  | [a, b, c] => [[a, b, c]]
  | a :: b :: c :: d :: t => [a, b, c, d] :: chunksOfFour t

/-- The expression `code?.match(/.{1,4}/g)?.join("-") || code` (session.js line 152): for a non-empty
code, the groups joined by `"-"`; for the empty string `match` yields `null` and the
`|| code` fallback returns the code itself. -/
def formatPairingCode (code : String) : String :=
  match chunksOfFour code.data with
  | [] => code
  | chunks => String.intercalate "-" (chunks.map (fun c => String.mk c))

/-- The id template `` `session_${phoneNumber}_${Date.now()}` `` (session.js line 120). -/
def sessionIdOf (phoneNumber : String) (now : Nat) : String :=
  "session_" ++ phoneNumber ++ "_" ++ toString now

/-- The call `path.join("/tmp", "sessions", phoneNumber)` (session.js line 121): the staging
directory is keyed by the phone number alone. -/
def sessionPathOf (phoneNumber : String) : String :=
  "/tmp/sessions/" ++ phoneNumber

/-- Outcomes of the external calls `startPairing` awaits: `Date.now()`, the
`state.creds.registered` flag delivered by `useMultiFileAuthState`, whether
`useMultiFileAuthState` / `makeWASocket` construction throws, and the outcome of
`sock.requestPairingCode`. -/
structure PairingEnv where
  now : Nat
  credsRegistered : Bool
  socketResult : Except String Unit
  pairingCodeResult : Except String String

/-- The function `startPairing` (session.js lines 119-198) up to its synchronous return.
The `mkdirSync` happens before the `try`; the registry insert (line 140) happens after
socket construction but *before* the pairing-code request; the `catch` block only logs
and rethrows, so a pairing-code failure leaves the inserted record in the registry. -/
def startPairing (phoneNumber : String) (env : PairingEnv) (w : World) :
    Except String (String × Option String) × World :=
  let sessionId := sessionIdOf phoneNumber env.now
  let sessionPath := sessionPathOf phoneNumber
  -- if (!fs.existsSync(sessionPath)) fs.mkdirSync(sessionPath, { recursive: true })
  let w : World :=
    { w with fsDirs := if w.fsDirs.contains sessionPath then w.fsDirs
                       else w.fsDirs ++ [sessionPath] }
  match env.socketResult with
  | .error e => (.error e, w)
  | .ok _ =>
    let record : SessionRecord :=
      { phoneNumber := phoneNumber, status := .waiting, connectedAt := none,
        githubUrl := none, sessionPath := sessionPath }
    let w : World := { w with registry := registrySet w.registry sessionId record }
    if env.credsRegistered then
      (.ok (sessionId, none), w)
    else
      match env.pairingCodeResult with
      | .error e => (.error e, w)
      | .ok code => (.ok (sessionId, some (formatPairingCode code)), w)

/-! ## Credential upload sequence (`uploadSessionToGithub`, `parseGithubRepo`) -/

/-- Match `github\.com\/([^\/]+)\/([^\/]+)` at the head of the input: the literal
`github.com/`, then a non-empty run of non-`/` characters, a `/`, and another
non-empty run of non-`/` characters. -/
def matchRepoHere (cs : List Char) : Option (String × String) :=
  let lit := "github.com/".data
  if cs.take lit.length = lit then
    let rest := cs.drop lit.length
    let seg1 := rest.takeWhile (fun c => c ≠ '/')
    match seg1, rest.drop seg1.length with
    | [], _ => none
    | _ :: _, '/' :: rest2 =>
      match rest2.takeWhile (fun c => c ≠ '/') with
      | [] => none
      | seg2 => some (String.mk seg1, String.mk seg2)
    | _ :: _, _ => none
  else none

/-- Unanchored search for the regex `github\.com\/([^\/]+)\/([^\/]+)`. -/
def searchRepo : List Char → Option (String × String)
  | [] => none
  | c :: cs =>
    match matchRepoHere (c :: cs) with
    | some r => some r
    | none => searchRepo cs

/-- JS `String.prototype.split` at `/` on a character list: maximal runs between `/`
separators, keeping empty segments (`"a//b"` → `["a","","b"]`, `""` → `[""]`). -/
def splitOnSlash : List Char → List (List Char)
  | [] => [[]]
  | c :: t =>
    if c = '/' then [] :: splitOnSlash t
    else
      match splitOnSlash t with
      | [] => [[c]]
      | g :: gs => (c :: g) :: gs

/-- The function `parseGithubRepo` (session.js lines 52-61). `none` models an unset
`GITHUB_REPO_URL`; the empty string is falsy in JS, so it throws the same error.
If the `github.com` regex does not match, the fallback `split` on `/` always
succeeds: `parts[0]` is the owner and `parts[1]` is the repo, which is
`undefined` (here `none`) when the string has no `/`. -/
def parseGithubRepo (githubRepoUrl : Option String) :
    Except String (String × Option String) :=
  match githubRepoUrl with
  | none => .error "GITHUB_REPO_URL not set"
  | some s =>
    if s = "" then .error "GITHUB_REPO_URL not set"
    else
      match searchRepo s.data with
      | some (owner, repo) => .ok (owner, some repo)
      | none =>
        match (splitOnSlash s.data).map (fun g => String.mk g) with
        | [] => .ok ("", none)
        | p0 :: rest => .ok (p0, rest.head?)

/-- JS string interpolation of a possibly-`undefined` repo: `` `${repo}` `` prints
`"undefined"` when `parts[1]` was absent. -/
def repoString : Option String → String
  | some r => r
  | none => "undefined"

/-- Observable calls of the upload sequence, in program order:
`fs.readFileSync`, `octokit.repos.getContent`, `octokit.repos.createOrUpdateFileContents`. -/
inductive UploadAction
  | readFile (name : String)
  | getContent (path : String)
  | putFile (path : String)
deriving DecidableEq, Repr

/-- External inputs of `uploadSessionToGithub`: the `GITHUB_REPO_URL` environment
variable, the staging directory listing (`fs.readdirSync`), and a per-path outcome
oracle for `createOrUpdateFileContents` (the `getContent` probe has its errors
swallowed by `.catch(() => ({ data: null }))`, so only the put outcome matters). -/
structure UploadEnv where
  githubRepoUrl : Option String
  files : List String
  putResult : String → Except String Unit

/-- The `for (const file of files)` loop (session.js lines 80-107): each iteration
reads the file, probes `getContent`, attempts the put, and a put failure is caught
inside the loop — it is logged and the loop continues with the next file.
Returns the actions performed and the files whose put succeeded. -/
def uploadLoop (putResult : String → Except String Unit) (sessionFolder : String) :
    List String → List UploadAction × List String
  | [] => ([], [])
  | f :: fs =>
    let p := sessionFolder ++ "/" ++ f
    let rest := uploadLoop putResult sessionFolder fs
    match putResult p with
    | .ok _ =>
      (.readFile f :: .getContent p :: .putFile p :: rest.1, f :: rest.2)
    | .error _ =>
      (.readFile f :: .getContent p :: .putFile p :: rest.1, rest.2)

/-- Result of one run of `uploadSessionToGithub`: the returned value or thrown error,
the external calls performed, and the files whose put succeeded. -/
structure UploadOutcome where
  result : Except String String
  actions : List UploadAction
  uploaded : List String
deriving Repr

/-- The function `uploadSessionToGithub` (session.js lines 72-116): `parseGithubRepo` runs first
(its error propagates through the outer `catch`, before `readdirSync`); then the
per-file loop; then the `githubUrl` is computed and returned unconditionally. -/
def uploadSessionToGithub (env : UploadEnv) (phoneNumber : String) : UploadOutcome :=
  match parseGithubRepo env.githubRepoUrl with
  | .error e => { result := .error e, actions := [], uploaded := [] }
  | .ok (owner, repo) =>
    let sessionFolder := "sessions/" ++ phoneNumber
    let run := uploadLoop env.putResult sessionFolder env.files
    let githubUrl :=
      "https://github.com/" ++ owner ++ "/" ++ repoString repo ++ "/tree/main/" ++ sessionFolder
    { result := .ok githubUrl, actions := run.1, uploaded := run.2 }

/-! ## HTTP handlers
All three JS files export a function named `handler`; they are distinguished here by
endpoint: `sessionCreateHandler` (POST, session.js lines 201-239),
`sessionStatusHandler` (GET, `api/session-status/[sessionId].js`),
`sessionsListHandler` (GET, `api/sessions.js`). Each returns the JSON response
rendered as a structure plus the resulting world. -/

/-- Response of `POST` session creation: HTTP status plus the JSON fields it writes.
`none` models an absent JSON field. -/
structure CreateResponse where
  status : Nat
  success : Option Bool
  sessionId : Option String
  pairingCode : Option String
  phoneNumber : Option String
  error : Option String
deriving DecidableEq, Repr

/-- The cleanup `phoneNumber.replace(/\D/g, '')`: keep only the decimal digits. -/
def cleanNumberOf (phoneNumber : String) : String :=
  String.mk (phoneNumber.data.filter Char.isDigit)

/-- The creation `handler` (session.js lines 201-239): method check, falsy-body check,
digit cleanup, leading-zero and length validation, then `startPairing`; a thrown error
is answered with 500 and `error.message || "Failed to generate pairing code"`. -/
def sessionCreateHandler (method : String) (phoneNumber : Option String)
    (env : PairingEnv) (w : World) : CreateResponse × World :=
  if method ≠ "POST" then
    ({ status := 405, success := none, sessionId := none, pairingCode := none,
       phoneNumber := none, error := some "Method not allowed" }, w)
  else
    match phoneNumber with
    | none =>
      ({ status := 400, success := none, sessionId := none, pairingCode := none,
         phoneNumber := none, error := some "Phone number is required" }, w)
    | some p =>
      if p = "" then
        ({ status := 400, success := none, sessionId := none, pairingCode := none,
           phoneNumber := none, error := some "Phone number is required" }, w)
      else
        let cleanNumber := cleanNumberOf p
        if cleanNumber.startsWith "0" then
          ({ status := 400, success := none, sessionId := none, pairingCode := none,
             phoneNumber := none, error := some "Phone number cannot start with 0" }, w)
        else if cleanNumber.length < 10 ∨ cleanNumber.length > 15 then
          ({ status := 400, success := none, sessionId := none, pairingCode := none,
             phoneNumber := none, error := some "Phone number must be 10-15 digits" }, w)
        else
          match startPairing cleanNumber env w with
          | (.ok (sessionId, pairingCode), w2) =>
            ({ status := 200, success := some true, sessionId := some sessionId,
               pairingCode := pairingCode, phoneNumber := some cleanNumber,
               error := none }, w2)
          | (.error e, w2) =>
            ({ status := 500, success := some false, sessionId := none,
               pairingCode := none, phoneNumber := none,
               error := some (if e = "" then "Failed to generate pairing code" else e) }, w2)

/-- Response of `GET` session status. -/
structure StatusResponse where
  status : Nat
  sessionStatus : Option SessionStatus
  phoneNumber : Option String
  connectedAt : Option Nat
  githubUrl : Option String
  error : Option String
deriving DecidableEq, Repr

/-- The status `handler` (`api/session-status/[sessionId].js`): method check, falsy
`sessionId` check, registry lookup, 404 when absent, else the snapshot projection. -/
def sessionStatusHandler (method : String) (sessionId : Option String) (w : World) :
    StatusResponse × World :=
  if method ≠ "GET" then
    ({ status := 405, sessionStatus := none, phoneNumber := none, connectedAt := none,
       githubUrl := none, error := some "Method not allowed" }, w)
  else
    match sessionId with
    | none =>
      ({ status := 400, sessionStatus := none, phoneNumber := none, connectedAt := none,
         githubUrl := none, error := some "Session ID is required" }, w)
    | some sid =>
      if sid = "" then
        ({ status := 400, sessionStatus := none, phoneNumber := none, connectedAt := none,
           githubUrl := none, error := some "Session ID is required" }, w)
      else
        match registryGet w.registry sid with
        | none =>
          ({ status := 404, sessionStatus := none, phoneNumber := none,
             connectedAt := none, githubUrl := none, error := some "Session not found" }, w)
        | some session =>
          ({ status := 200, sessionStatus := some session.status,
             phoneNumber := some session.phoneNumber, connectedAt := session.connectedAt,
             githubUrl := session.githubUrl, error := none }, w)

/-- One element of the `sessions` array of `GET /api/sessions`. -/
structure SessionSummary where
  id : String
  phoneNumber : String
  connectedAt : Option Nat
  lastActivity : Option Nat
  githubUrl : Option String
deriving DecidableEq, Repr

/-- The `session.status === "connected"` filter-and-project of `api/sessions.js`
(lines 11-23): registry iteration order, only connected records,
`lastActivity` copied from `connectedAt`. -/
def listConnectedSessions (registry : List (String × SessionRecord)) :
    List SessionSummary :=
  (registry.filter (fun e => decide (e.2.status = SessionStatus.connected))).map
    (fun e => { id := e.1, phoneNumber := e.2.phoneNumber, connectedAt := e.2.connectedAt,
                lastActivity := e.2.connectedAt, githubUrl := e.2.githubUrl })

/-- Response of `GET` sessions list. -/
structure ListResponse where
  status : Nat
  sessions : Option (List SessionSummary)
  error : Option String
deriving DecidableEq, Repr

/-- The list `handler` (`api/sessions.js`): method check, then the connected
projection; it never writes the registry. -/
def sessionsListHandler (method : String) (w : World) : ListResponse × World :=
  if method ≠ "GET" then
    ({ status := 405, sessions := none, error := some "Method not allowed" }, w)
  else
    ({ status := 200, sessions := some (listConnectedSessions w.registry), error := none }, w)

/-! ## Helper lemmas -/

theorem registryGet_registrySet_self (reg : List (String × SessionRecord))
    (k : String) (v : SessionRecord) : registryGet (registrySet reg k v) k = some v := by
  induction reg with
  | nil => simp [registrySet, registryGet]
  | cons e t ih =>
    by_cases h : e.1 = k
    · simp [registrySet, registryGet, h]
    · simp [registrySet, registryGet, h, ih]

theorem registrySet_fsDirs_of_close (sid sp : String) (t : Nat)
    (ur : Except String String) (w : World) :
    (connectionUpdateHandler sid sp t ur (.connClose (some loggedOutStatusCode)) w).fsDirs =
      match registryGet w.registry sid with
      | none => w.fsDirs
      | some _ => w.fsDirs.filter (fun p => p ≠ sp) := by
  cases h : registryGet w.registry sid <;>
    simp [connectionUpdateHandler, h]

/-- Entries of `registrySet reg k v` when the keys of `reg` are pairwise distinct:
each entry is either the new binding or an untouched entry with a different key. -/
theorem mem_registrySet_of_nodup (reg : List (String × SessionRecord))
    (k : String) (v : SessionRecord) (hnd : (reg.map Prod.fst).Nodup) :
    ∀ e ∈ registrySet reg k v, e = (k, v) ∨ (e ∈ reg ∧ e.1 ≠ k) := by
  induction reg with
  | nil => intro e he; simp [registrySet] at he; exact Or.inl he
  | cons a t ih =>
    intro e he
    simp only [List.map_cons, List.nodup_cons] at hnd
    by_cases hk : a.1 = k
    · simp only [registrySet, if_pos hk] at he
      rcases List.mem_cons.mp he with h | h
      · exact Or.inl h
      · refine Or.inr ⟨List.mem_cons_of_mem _ h, ?_⟩
        intro hek
        exact hnd.1 (hk ▸ hek ▸ List.mem_map_of_mem Prod.fst h)
    · simp only [registrySet, if_neg hk] at he
      rcases List.mem_cons.mp he with h | h
      · exact Or.inr ⟨h ▸ List.mem_cons_self a t, h ▸ hk⟩
      · rcases ih hnd.2 e h with h1 | h1
        · exact Or.inl h1
        · exact Or.inr ⟨List.mem_cons_of_mem _ h1.1, h1.2⟩

theorem chunksOfFour_flatten (cs : List Char) : (chunksOfFour cs).flatten = cs := by
  induction cs using chunksOfFour.induct with
  | case1 => simp [chunksOfFour]
  | case2 a => simp [chunksOfFour]
  | case3 a b => simp [chunksOfFour]
  | case4 a b c => simp [chunksOfFour]
  | case5 a b c d t ih => simp [chunksOfFour, ih]

theorem chunksOfFour_mem (cs : List Char) :
    ∀ c ∈ chunksOfFour cs, c ≠ [] ∧ c.length ≤ 4 := by
  induction cs using chunksOfFour.induct with
  | case1 => simp [chunksOfFour]
  | case2 a => simp [chunksOfFour]
  | case3 a b => simp [chunksOfFour]
  | case4 a b c => simp [chunksOfFour]
  | case5 a b c d t ih =>
    intro g hg
    rw [chunksOfFour] at hg
    rcases List.mem_cons.mp hg with h | h
    · subst h
      refine ⟨by simp, by simp⟩
    · exact ih g h

theorem chunksOfFour_ne_nil (cs : List Char) (h : cs ≠ []) : chunksOfFour cs ≠ [] := by
  induction cs using chunksOfFour.induct with
  | case1 => exact absurd rfl h
  | case2 a => simp [chunksOfFour]
  | case3 a b => simp [chunksOfFour]
  | case4 a b c => simp [chunksOfFour]
  | case5 a b c d t ih => simp [chunksOfFour]

/-- For a non-empty code the `|| code` fallback is not taken: the formatted code is
the groups joined by `"-"`. -/
theorem formatPairingCode_eq (code : String) (h : code.data ≠ []) :
    formatPairingCode code =
      String.intercalate "-" ((chunksOfFour code.data).map (fun c => String.mk c)) := by
  unfold formatPairingCode
  cases hch : chunksOfFour code.data with
  | nil => exact absurd hch (chunksOfFour_ne_nil _ h)
  | cons a l => simp

/-! ## Claims -/

/-- C1 (counterexample): with the pairing-code request failing (`requestPairingCode`
throws), `startPairing "2348140825959"` surfaces the error, but the Session Record for
the generated id `session_2348140825959_1` is still present in the registry with
status `waiting` — contradicting "no Session Record for the generated id remains". -/
theorem C1_counterexample :
    (startPairing "2348140825959"
        { now := 1, credsRegistered := false, socketResult := .ok (),
          pairingCodeResult := .error "boom" }
        { registry := [], fsDirs := [] }).1 = .error "boom" ∧
    registryGet (startPairing "2348140825959"
        { now := 1, credsRegistered := false, socketResult := .ok (),
          pairingCodeResult := .error "boom" }
        { registry := [], fsDirs := [] }).2.registry "session_2348140825959_1" =
      some { phoneNumber := "2348140825959", status := .waiting, connectedAt := none,
             githubUrl := none, sessionPath := "/tmp/sessions/2348140825959" } :=
  ⟨rfl, rfl⟩

/-- C1 (amended): every creation-time error is surfaced synchronously as a failure of
`startPairing`; a connection-handle construction error (before the registry insert)
leaves the registry unchanged, so no Session Record for the generated id remains, but
an error in the pairing-code request leaves the already-inserted Session Record (status
`waiting`) in the registry. -/
theorem C1_creation_error_paths (phoneNumber e : String) (env : PairingEnv) (w : World) :
    (env.socketResult = .error e →
      (startPairing phoneNumber env w).1 = .error e ∧
      (startPairing phoneNumber env w).2.registry = w.registry) ∧
    (env.socketResult = .ok () → env.credsRegistered = false →
      env.pairingCodeResult = .error e →
      (startPairing phoneNumber env w).1 = .error e ∧
      registryGet (startPairing phoneNumber env w).2.registry
          (sessionIdOf phoneNumber env.now) =
        some { phoneNumber := phoneNumber, status := .waiting, connectedAt := none,
               githubUrl := none, sessionPath := sessionPathOf phoneNumber }) := by
  constructor
  · intro hs
    simp [startPairing, hs]
  · intro hs hc hp
    simp [startPairing, hs, hc, hp, registryGet_registrySet_self]

/-- Witness for C1 (amended): both error paths at concrete inputs. -/
theorem C1_creation_error_paths_witness :
    ((startPairing "2348140825959"
        { now := 1, credsRegistered := false, socketResult := .error "efail",
          pairingCodeResult := .ok "" } { registry := [], fsDirs := [] }).1 =
          .error "efail" ∧
      (startPairing "2348140825959"
        { now := 1, credsRegistered := false, socketResult := .error "efail",
          pairingCodeResult := .ok "" } { registry := [], fsDirs := [] }).2.registry = []) ∧
    ((startPairing "2348140825959"
        { now := 2, credsRegistered := false, socketResult := .ok (),
          pairingCodeResult := .error "pfail" } { registry := [], fsDirs := [] }).1 =
          .error "pfail" ∧
      registryGet (startPairing "2348140825959"
        { now := 2, credsRegistered := false, socketResult := .ok (),
          pairingCodeResult := .error "pfail" } { registry := [], fsDirs := [] }).2.registry
          (sessionIdOf "2348140825959" 2) =
        some { phoneNumber := "2348140825959", status := .waiting, connectedAt := none,
               githubUrl := none, sessionPath := sessionPathOf "2348140825959" }) :=
  ⟨(C1_creation_error_paths "2348140825959" "efail" _ _).1 rfl,
   (C1_creation_error_paths "2348140825959" "pfail" _ _).2 rfl rfl rfl⟩

/-- C2 (counterexample): a `close` event with a non-logout cause (status code 408) on a
`waiting` session leaves its status `waiting` — the handler does *not* set it to
`disconnected` as the claim states (the retryable branch of the callback is empty). -/
theorem C2_counterexample :
    (registryGet (connectionUpdateHandler "s1" "/tmp/sessions/2348140825959" 5
        (Except.error "unused") (ConnectionUpdate.connClose (some 408))
        { registry := [("s1", { phoneNumber := "2348140825959", status := .waiting,
                                connectedAt := none, githubUrl := none,
                                sessionPath := "/tmp/sessions/2348140825959" })],
          fsDirs := ["/tmp/sessions/2348140825959"] }).registry "s1").map
        SessionRecord.status = some SessionStatus.waiting ∧
    SessionStatus.waiting ≠ SessionStatus.disconnected :=
  ⟨rfl, by decide⟩

/-- C2 (amended): for every `close` event whose cause is not the explicit-logout status
code, the handler leaves the whole world unchanged — the Session Record keeps its prior
status (it is *not* set to `disconnected`) and the staging directory is left intact. -/
theorem C2_retryable_close_is_noop (sessionId sessionPath : String) (now : Nat)
    (uploadResult : Except String String) (statusCode : Option Nat) (w : World)
    (h : statusCode ≠ some loggedOutStatusCode) :
    connectionUpdateHandler sessionId sessionPath now uploadResult
      (.connClose statusCode) w = w := by
  simp [connectionUpdateHandler, h]

/-- Witness for C2 (amended): a close with status code 408 at a concrete world. -/
theorem C2_retryable_close_is_noop_witness :
    connectionUpdateHandler "s1" "/tmp/sessions/2348140825959" 5 (Except.error "unused")
      (.connClose (some 408))
      { registry := [("s1", { phoneNumber := "2348140825959", status := .waiting,
                              connectedAt := none, githubUrl := none,
                              sessionPath := "/tmp/sessions/2348140825959" })],
        fsDirs := ["/tmp/sessions/2348140825959"] } =
      { registry := [("s1", { phoneNumber := "2348140825959", status := .waiting,
                              connectedAt := none, githubUrl := none,
                              sessionPath := "/tmp/sessions/2348140825959" })],
        fsDirs := ["/tmp/sessions/2348140825959"] } :=
  C2_retryable_close_is_noop "s1" "/tmp/sessions/2348140825959" 5 (Except.error "unused")
    (some 408) _ (by decide)

/-- C3 (counterexample): two `open` events at times 5 and then 9 for the same session:
the first sets `connectedAt = 5`, the second *overwrites* it to 9 — so a subsequent
Open event is not a no-op on `connectedAt` (`session.connectedAt = Date.now()` runs on
every `open`). -/
theorem C3_counterexample :
    (registryGet (connectionUpdateHandler "s1" "/tmp/sessions/234" 5 (Except.error "e1")
        .connOpen
        { registry := [("s1", { phoneNumber := "234", status := .waiting,
                                connectedAt := none, githubUrl := none,
                                sessionPath := "/tmp/sessions/234" })],
          fsDirs := ["/tmp/sessions/234"] }).registry "s1").map
        SessionRecord.connectedAt = some (some 5) ∧
    (registryGet (connectionUpdateHandler "s1" "/tmp/sessions/234" 9 (Except.error "e2")
        .connOpen
        (connectionUpdateHandler "s1" "/tmp/sessions/234" 5 (Except.error "e1") .connOpen
          { registry := [("s1", { phoneNumber := "234", status := .waiting,
                                  connectedAt := none, githubUrl := none,
                                  sessionPath := "/tmp/sessions/234" })],
            fsDirs := ["/tmp/sessions/234"] })).registry "s1").map
        SessionRecord.connectedAt = some (some 9) ∧
    some (5 : Nat) ≠ some 9 :=
  ⟨rfl, rfl, by decide⟩

/-- C3 (amended): *every* `open` event sets the session's status to `connected` and
assigns `connectedAt` to that event's own time — the first Open behaves as the claim
says, but a subsequent Open overwrites `connectedAt` with the new time rather than
leaving it unchanged. -/
theorem C3_open_sets_connectedAt (sessionId sessionPath : String) (now : Nat)
    (uploadResult : Except String String) (w : World) (r : SessionRecord)
    (h : registryGet w.registry sessionId = some r) :
    ∃ r2, registryGet (connectionUpdateHandler sessionId sessionPath now uploadResult
        .connOpen w).registry sessionId = some r2 ∧
      r2.status = .connected ∧ r2.connectedAt = some now := by
  cases uploadResult with
  | ok url =>
    refine ⟨{ r with status := .connected, connectedAt := some now, githubUrl := some url }, ?_, rfl, rfl⟩
    simp [connectionUpdateHandler, h, registryGet_registrySet_self]
  | error e =>
    refine ⟨{ r with status := .connected, connectedAt := some now }, ?_, rfl, rfl⟩
    simp [connectionUpdateHandler, h, registryGet_registrySet_self]

/-- Witness for C3 (amended): an `open` event at time 7 on a concrete waiting session. -/
theorem C3_open_sets_connectedAt_witness :
    ∃ r2, registryGet (connectionUpdateHandler "s1" "/tmp/sessions/234" 7 (Except.ok "u")
        .connOpen
        { registry := [("s1", { phoneNumber := "234", status := .waiting,
                                connectedAt := none, githubUrl := none,
                                sessionPath := "/tmp/sessions/234" })],
          fsDirs := ["/tmp/sessions/234"] }).registry "s1" = some r2 ∧
      r2.status = .connected ∧ r2.connectedAt = some 7 :=
  C3_open_sets_connectedAt "s1" "/tmp/sessions/234" 7 (Except.ok "u") _ _ rfl

/-- C4 (counterexample): two pairing attempts for the same account `"2348140825959"`
(at `Date.now()` 1 and 2) create two distinct Session Records — their ids differ — yet
both records carry the *same* staging path `/tmp/sessions/2348140825959`: the path is
keyed by the account alone, not by account plus creation timestamp. -/
theorem C4_counterexample :
    sessionIdOf "2348140825959" 1 ≠ sessionIdOf "2348140825959" 2 ∧
    (registryGet (startPairing "2348140825959"
        { now := 2, credsRegistered := true, socketResult := .ok (),
          pairingCodeResult := .ok "" }
        (startPairing "2348140825959"
          { now := 1, credsRegistered := true, socketResult := .ok (),
            pairingCodeResult := .ok "" }
          { registry := [], fsDirs := [] }).2).2.registry
        (sessionIdOf "2348140825959" 1)).map SessionRecord.sessionPath =
      some "/tmp/sessions/2348140825959" ∧
    (registryGet (startPairing "2348140825959"
        { now := 2, credsRegistered := true, socketResult := .ok (),
          pairingCodeResult := .ok "" }
        (startPairing "2348140825959"
          { now := 1, credsRegistered := true, socketResult := .ok (),
            pairingCodeResult := .ok "" }
          { registry := [], fsDirs := [] }).2).2.registry
        (sessionIdOf "2348140825959" 2)).map SessionRecord.sessionPath =
      some "/tmp/sessions/2348140825959" :=
  ⟨by decide, rfl, rfl⟩

/-- C4 (amended): the staging path is derived from the `accountIdentifier` alone
(`/tmp/sessions/<phoneNumber>`, no creation timestamp): two Session Records have
distinct staging paths exactly when their account identifiers differ — in particular
two pairing attempts for the *same* account always share the staging path. -/
theorem C4_path_keyed_by_account (p1 p2 : String) :
    sessionPathOf p1 = sessionPathOf p2 ↔ p1 = p2 := by
  constructor
  · intro h
    have h2 : ("/tmp/sessions/" ++ p1).data = ("/tmp/sessions/" ++ p2).data :=
      congrArg String.data h
    rw [String.data_append, String.data_append] at h2
    exact String.ext (List.append_cancel_left h2)
  · intro h
    rw [h]

/-- Witness for C4 (amended): same account shares the path; distinct accounts do not. -/
theorem C4_path_keyed_by_account_witness :
    sessionPathOf "2348140825959" = sessionPathOf "2348140825959" ∧
    sessionPathOf "2348140825959" ≠ sessionPathOf "2348140825950" :=
  ⟨(C4_path_keyed_by_account "2348140825959" "2348140825959").mpr rfl,
   fun h => by
     have h2 := (C4_path_keyed_by_account "2348140825959" "2348140825950").mp h
     simp at h2⟩

/-- A present, non-empty `GITHUB_REPO_URL` always parses: either the `github.com`
regex matches, or the `split` fallback returns `parts[0]`/`parts[1]` — there is
no failing branch. -/
theorem parseGithubRepo_ok_of_ne_empty (s : String) (h : s ≠ "") :
    ∃ ownerRepo, parseGithubRepo (some s) = Except.ok ownerRepo := by
  cases hsr : searchRepo s.data with
  | some pr =>
    obtain ⟨o, r⟩ := pr
    exact ⟨(o, some r), by simp [parseGithubRepo, h, hsr]⟩
  | none =>
    cases hsp : (splitOnSlash s.data).map (fun g => String.mk g) with
    | nil => exact ⟨("", none), by simp [parseGithubRepo, h, hsr, hsp]⟩
    | cons p0 rest => exact ⟨(p0, rest.head?), by simp [parseGithubRepo, h, hsr, hsp]⟩

/-- C5 (counterexample): the configuration `"noslash"` has no parsable `owner/repo`
shape, yet the upload sequence does *not* fail fast: with one staged file it reads the
file, probes and puts it (against repo `undefined`), and returns a URL instead of a
configuration error. -/
theorem C5_counterexample :
    (uploadSessionToGithub
        { githubRepoUrl := some "noslash", files := ["creds.json"],
          putResult := fun _ => .ok () } "2348140825959").actions =
      [.readFile "creds.json", .getContent "sessions/2348140825959/creds.json",
       .putFile "sessions/2348140825959/creds.json"] ∧
    (uploadSessionToGithub
        { githubRepoUrl := some "noslash", files := ["creds.json"],
          putResult := fun _ => .ok () } "2348140825959").result =
      .ok "https://github.com/noslash/undefined/tree/main/sessions/2348140825959" :=
  ⟨rfl, rfl⟩

/-- C5 (amended): only an *absent* remote-store configuration (env var unset, or the
empty string, both falsy in JS) makes the upload sequence fail fast with the
configuration error, before any file is read or put attempted; every present non-empty
configuration string is accepted by the parser (the `split` fallback never fails),
so the sequence proceeds and returns a URL. -/
theorem C5_fail_fast_only_when_unset (env : UploadEnv) (phoneNumber : String) :
    ((env.githubRepoUrl = none ∨ env.githubRepoUrl = some "") →
      (uploadSessionToGithub env phoneNumber).result = .error "GITHUB_REPO_URL not set" ∧
      (uploadSessionToGithub env phoneNumber).actions = [] ∧
      (uploadSessionToGithub env phoneNumber).uploaded = []) ∧
    (∀ s, env.githubRepoUrl = some s → s ≠ "" →
      ∃ url, (uploadSessionToGithub env phoneNumber).result = .ok url) := by
  constructor
  · intro h
    rcases h with h | h <;> simp [uploadSessionToGithub, parseGithubRepo, h]
  · intro s hs hne
    obtain ⟨⟨o, r⟩, hpr⟩ := parseGithubRepo_ok_of_ne_empty s hne
    refine ⟨"https://github.com/" ++ o ++ "/" ++ repoString r ++ "/tree/main/" ++
      ("sessions/" ++ phoneNumber), ?_⟩
    simp [uploadSessionToGithub, hs, hpr]

/-- Witness for C5 (amended): unset configuration fails fast with no actions; the
configuration `"noslash"` is accepted and yields a URL. -/
theorem C5_fail_fast_only_when_unset_witness :
    ((uploadSessionToGithub
        { githubRepoUrl := none, files := ["creds.json"], putResult := fun _ => .ok () }
        "2348140825959").result = .error "GITHUB_REPO_URL not set" ∧
      (uploadSessionToGithub
        { githubRepoUrl := none, files := ["creds.json"], putResult := fun _ => .ok () }
        "2348140825959").actions = [] ∧
      (uploadSessionToGithub
        { githubRepoUrl := none, files := ["creds.json"], putResult := fun _ => .ok () }
        "2348140825959").uploaded = []) ∧
    (∃ url, (uploadSessionToGithub
        { githubRepoUrl := some "noslash", files := ["creds.json"],
          putResult := fun _ => .ok () } "2348140825959").result = .ok url) :=
  ⟨(C5_fail_fast_only_when_unset
      { githubRepoUrl := none, files := ["creds.json"], putResult := fun _ => .ok () }
      "2348140825959").1 (Or.inl rfl),
   (C5_fail_fast_only_when_unset
      { githubRepoUrl := some "noslash", files := ["creds.json"],
        putResult := fun _ => .ok () }
      "2348140825959").2 "noslash" rfl (by decide)⟩

/-- C6: a `close` event with the logout status code on a connected session sets the
record's status to `disconnected`, removes its staging directory, removes the session
from the connected-sessions listing, and the status endpoint still resolves the id with
status `disconnected` (the record stays in the registry). The `Nodup` hypothesis is the
JS `Map` invariant that registry keys are unique. -/
theorem C6_logout_close (sessionId : String) (now : Nat) (ur : Except String String)
    (w : World) (r : SessionRecord)
    (hnd : (w.registry.map Prod.fst).Nodup)
    (h : registryGet w.registry sessionId = some r)
    (_hc : r.status = .connected)
    (hsid : sessionId ≠ "") :
    registryGet (connectionUpdateHandler sessionId r.sessionPath now ur
        (.connClose (some loggedOutStatusCode)) w).registry sessionId =
      some { r with status := .disconnected } ∧
    r.sessionPath ∉ (connectionUpdateHandler sessionId r.sessionPath now ur
        (.connClose (some loggedOutStatusCode)) w).fsDirs ∧
    sessionId ∉ (listConnectedSessions (connectionUpdateHandler sessionId r.sessionPath
        now ur (.connClose (some loggedOutStatusCode)) w).registry).map
        SessionSummary.id ∧
    (sessionStatusHandler "GET" (some sessionId) (connectionUpdateHandler sessionId
        r.sessionPath now ur (.connClose (some loggedOutStatusCode)) w)).1.status = 200 ∧
    (sessionStatusHandler "GET" (some sessionId) (connectionUpdateHandler sessionId
        r.sessionPath now ur (.connClose (some loggedOutStatusCode)) w)).1.sessionStatus =
      some .disconnected := by
  have hw2 : connectionUpdateHandler sessionId r.sessionPath now ur
      (.connClose (some loggedOutStatusCode)) w =
      { registry := registrySet w.registry sessionId { r with status := .disconnected },
        fsDirs := w.fsDirs.filter (fun p => p ≠ r.sessionPath) } := by
    simp [connectionUpdateHandler, h]
  rw [hw2]
  refine ⟨registryGet_registrySet_self _ _ _, ?_, ?_, ?_, ?_⟩
  · simp [List.mem_filter]
  · intro hmem
    simp only [listConnectedSessions, List.mem_map, List.mem_filter] at hmem
    obtain ⟨s2, ⟨⟨e, ⟨hein, hconn⟩, hproj⟩, hid⟩⟩ :
        ∃ s2, (∃ e, (e ∈ registrySet w.registry sessionId { r with status := .disconnected } ∧
            decide (e.2.status = SessionStatus.connected) = true) ∧
          ({ id := e.1, phoneNumber := e.2.phoneNumber, connectedAt := e.2.connectedAt,
             lastActivity := e.2.connectedAt, githubUrl := e.2.githubUrl } :
            SessionSummary) = s2) ∧ s2.id = sessionId := by
      simpa [listConnectedSessions, List.mem_map, List.mem_filter] using hmem
    rcases mem_registrySet_of_nodup w.registry sessionId
        { r with status := .disconnected } hnd e hein with he | ⟨_, hne⟩
    · rw [he] at hconn
      simp at hconn
    · apply hne
      rw [← hproj] at hid
      exact hid
  · simp [sessionStatusHandler, hsid, registryGet_registrySet_self]
  · simp [sessionStatusHandler, hsid, registryGet_registrySet_self]

/-- Witness for C6: concrete connected session, logout close at time 9. -/
theorem C6_logout_close_witness :
    registryGet (connectionUpdateHandler "s1" "/tmp/sessions/2348140825959" 9
        (Except.error "unused") (.connClose (some loggedOutStatusCode))
        { registry := [("s1", { phoneNumber := "2348140825959", status := .connected,
                                connectedAt := some 5, githubUrl := some "u",
                                sessionPath := "/tmp/sessions/2348140825959" })],
          fsDirs := ["/tmp/sessions/2348140825959"] }).registry "s1" =
      some { phoneNumber := "2348140825959", status := .disconnected,
             connectedAt := some 5, githubUrl := some "u",
             sessionPath := "/tmp/sessions/2348140825959" } ∧
    "/tmp/sessions/2348140825959" ∉ (connectionUpdateHandler "s1"
        "/tmp/sessions/2348140825959" 9 (Except.error "unused")
        (.connClose (some loggedOutStatusCode))
        { registry := [("s1", { phoneNumber := "2348140825959", status := .connected,
                                connectedAt := some 5, githubUrl := some "u",
                                sessionPath := "/tmp/sessions/2348140825959" })],
          fsDirs := ["/tmp/sessions/2348140825959"] }).fsDirs ∧
    "s1" ∉ (listConnectedSessions (connectionUpdateHandler "s1"
        "/tmp/sessions/2348140825959" 9 (Except.error "unused")
        (.connClose (some loggedOutStatusCode))
        { registry := [("s1", { phoneNumber := "2348140825959", status := .connected,
                                connectedAt := some 5, githubUrl := some "u",
                                sessionPath := "/tmp/sessions/2348140825959" })],
          fsDirs := ["/tmp/sessions/2348140825959"] }).registry).map SessionSummary.id ∧
    (sessionStatusHandler "GET" (some "s1") (connectionUpdateHandler "s1"
        "/tmp/sessions/2348140825959" 9 (Except.error "unused")
        (.connClose (some loggedOutStatusCode))
        { registry := [("s1", { phoneNumber := "2348140825959", status := .connected,
                                connectedAt := some 5, githubUrl := some "u",
                                sessionPath := "/tmp/sessions/2348140825959" })],
          fsDirs := ["/tmp/sessions/2348140825959"] })).1.status = 200 ∧
    (sessionStatusHandler "GET" (some "s1") (connectionUpdateHandler "s1"
        "/tmp/sessions/2348140825959" 9 (Except.error "unused")
        (.connClose (some loggedOutStatusCode))
        { registry := [("s1", { phoneNumber := "2348140825959", status := .connected,
                                connectedAt := some 5, githubUrl := some "u",
                                sessionPath := "/tmp/sessions/2348140825959" })],
          fsDirs := ["/tmp/sessions/2348140825959"] })).1.sessionStatus =
      some .disconnected :=
  C6_logout_close "s1" 9 (Except.error "unused")
    { registry := [("s1", { phoneNumber := "2348140825959", status := .connected,
                            connectedAt := some 5, githubUrl := some "u",
                            sessionPath := "/tmp/sessions/2348140825959" })],
      fsDirs := ["/tmp/sessions/2348140825959"] }
    { phoneNumber := "2348140825959", status := .connected, connectedAt := some 5,
      githubUrl := some "u", sessionPath := "/tmp/sessions/2348140825959" }
    (by simp) rfl rfl (by decide)

/-- The per-file loop performs the read/probe/put calls for *every* file regardless of
each put's outcome, and records as uploaded exactly the files whose put succeeded. -/
theorem uploadLoop_spec (pr : String → Except String Unit) (folder : String)
    (fs : List String) :
    (uploadLoop pr folder fs).1 = fs.flatMap (fun f =>
        [.readFile f, .getContent (folder ++ "/" ++ f), .putFile (folder ++ "/" ++ f)]) ∧
    (uploadLoop pr folder fs).2 = fs.filter (fun f => (pr (folder ++ "/" ++ f)).toBool) := by
  induction fs with
  | nil => simp [uploadLoop]
  | cons f t ih =>
    cases hpr : pr (folder ++ "/" ++ f) <;>
      simp [uploadLoop, hpr, ih.1, ih.2, Except.toBool, List.filter_cons]

/-- C7: with a valid configuration, the upload sequence attempts the read, probe and
put of *every* staged file independently of any per-file put failure (a failing put is
caught inside the loop), the files actually uploaded are exactly those whose put
succeeded, the sequence still returns the remote location URL, and the `open`-event
handler stores that URL on the Session Record. -/
theorem C7_per_file_failures_do_not_abort (env : UploadEnv) (phoneNumber owner : String)
    (repo : Option String)
    (hparse : parseGithubRepo env.githubRepoUrl = .ok (owner, repo)) :
    (uploadSessionToGithub env phoneNumber).result =
      .ok ("https://github.com/" ++ owner ++ "/" ++ repoString repo ++ "/tree/main/" ++
        ("sessions/" ++ phoneNumber)) ∧
    (uploadSessionToGithub env phoneNumber).actions =
      env.files.flatMap (fun f =>
        [.readFile f, .getContent ("sessions/" ++ phoneNumber ++ "/" ++ f),
         .putFile ("sessions/" ++ phoneNumber ++ "/" ++ f)]) ∧
    (uploadSessionToGithub env phoneNumber).uploaded =
      env.files.filter (fun f =>
        (env.putResult ("sessions/" ++ phoneNumber ++ "/" ++ f)).toBool) ∧
    (∀ sessionId now w r, registryGet w.registry sessionId = some r →
      (registryGet (connectionUpdateHandler sessionId r.sessionPath now
          (uploadSessionToGithub env phoneNumber).result .connOpen w).registry
          sessionId).map SessionRecord.githubUrl =
        some (some ("https://github.com/" ++ owner ++ "/" ++ repoString repo ++
          "/tree/main/" ++ ("sessions/" ++ phoneNumber)))) := by
  have hres : uploadSessionToGithub env phoneNumber =
      { result := .ok ("https://github.com/" ++ owner ++ "/" ++ repoString repo ++
          "/tree/main/" ++ ("sessions/" ++ phoneNumber)),
        actions := (uploadLoop env.putResult ("sessions/" ++ phoneNumber) env.files).1,
        uploaded := (uploadLoop env.putResult ("sessions/" ++ phoneNumber) env.files).2 } := by
    simp [uploadSessionToGithub, hparse]
  refine ⟨by rw [hres], ?_, ?_, ?_⟩
  · rw [hres]
    exact (uploadLoop_spec env.putResult ("sessions/" ++ phoneNumber) env.files).1
  · rw [hres]
    exact (uploadLoop_spec env.putResult ("sessions/" ++ phoneNumber) env.files).2
  · intro sessionId now w r h
    rw [hres]
    simp [connectionUpdateHandler, h, registryGet_registrySet_self]

/-- Witness for C7: two staged files, the put of `a` fails, `b` still uploads, the URL
is still returned and stored on a concrete Session Record. -/
theorem C7_per_file_failures_do_not_abort_witness :
    (uploadSessionToGithub
        { githubRepoUrl := some "o/r", files := ["a", "b"],
          putResult := fun p => if p = "sessions/2348140825959/a" then .error "rate"
                                else .ok () } "2348140825959").result =
      .ok "https://github.com/o/r/tree/main/sessions/2348140825959" ∧
    (uploadSessionToGithub
        { githubRepoUrl := some "o/r", files := ["a", "b"],
          putResult := fun p => if p = "sessions/2348140825959/a" then .error "rate"
                                else .ok () } "2348140825959").actions =
      [.readFile "a", .getContent "sessions/2348140825959/a",
       .putFile "sessions/2348140825959/a",
       .readFile "b", .getContent "sessions/2348140825959/b",
       .putFile "sessions/2348140825959/b"] ∧
    (uploadSessionToGithub
        { githubRepoUrl := some "o/r", files := ["a", "b"],
          putResult := fun p => if p = "sessions/2348140825959/a" then .error "rate"
                                else .ok () } "2348140825959").uploaded = ["b"] ∧
    (registryGet (connectionUpdateHandler "s1" "/tmp/sessions/2348140825959" 7
        (uploadSessionToGithub
          { githubRepoUrl := some "o/r", files := ["a", "b"],
            putResult := fun p => if p = "sessions/2348140825959/a" then .error "rate"
                                  else .ok () } "2348140825959").result .connOpen
        { registry := [("s1", { phoneNumber := "2348140825959", status := .waiting,
                                connectedAt := none, githubUrl := none,
                                sessionPath := "/tmp/sessions/2348140825959" })],
          fsDirs := ["/tmp/sessions/2348140825959"] }).registry "s1").map
        SessionRecord.githubUrl =
      some (some "https://github.com/o/r/tree/main/sessions/2348140825959") := by
  have h := C7_per_file_failures_do_not_abort
    { githubRepoUrl := some "o/r", files := ["a", "b"],
      putResult := fun p => if p = "sessions/2348140825959/a" then .error "rate"
                            else .ok () } "2348140825959" "o" (some "r") rfl
  exact ⟨h.1, h.2.1, h.2.2.1,
    h.2.2.2 "s1" 7 _
      { phoneNumber := "2348140825959", status := .waiting, connectedAt := none,
        githubUrl := none, sessionPath := "/tmp/sessions/2348140825959" } rfl⟩

/-- C8: an `open` event whose credential upload fails (the upload outcome is an error)
still leaves the session `connected` — the failure is caught, it never reverts the
status, it touches neither `githubUrl` nor the filesystem, and the status endpoint
(what the caller can observe) reports `connected` with no error field. -/
theorem C8_upload_failure_invisible (sessionId sessionPath : String) (now : Nat)
    (err : String) (w : World) (r : SessionRecord)
    (h : registryGet w.registry sessionId = some r) (hsid : sessionId ≠ "") :
    registryGet (connectionUpdateHandler sessionId sessionPath now (.error err)
        .connOpen w).registry sessionId =
      some { r with status := .connected, connectedAt := some now } ∧
    (connectionUpdateHandler sessionId sessionPath now (.error err) .connOpen w).fsDirs =
      w.fsDirs ∧
    (sessionStatusHandler "GET" (some sessionId)
        (connectionUpdateHandler sessionId sessionPath now (.error err)
          .connOpen w)).1.sessionStatus = some .connected ∧
    (sessionStatusHandler "GET" (some sessionId)
        (connectionUpdateHandler sessionId sessionPath now (.error err)
          .connOpen w)).1.error = none := by
  have hreg : registryGet (connectionUpdateHandler sessionId sessionPath now (.error err)
      .connOpen w).registry sessionId =
      some { r with status := .connected, connectedAt := some now } := by
    simp [connectionUpdateHandler, h, registryGet_registrySet_self]
  refine ⟨hreg, by simp [connectionUpdateHandler, h], ?_, ?_⟩ <;>
    simp [sessionStatusHandler, hsid, hreg]

/-- Witness for C8: concrete connected session, failing upload. -/
theorem C8_upload_failure_invisible_witness :
    registryGet (connectionUpdateHandler "s1" "/tmp/sessions/2348140825959" 7
        (.error "github down") .connOpen
        { registry := [("s1", { phoneNumber := "2348140825959", status := .waiting,
                                connectedAt := none, githubUrl := none,
                                sessionPath := "/tmp/sessions/2348140825959" })],
          fsDirs := ["/tmp/sessions/2348140825959"] }).registry "s1" =
      some { phoneNumber := "2348140825959", status := .connected, connectedAt := some 7,
             githubUrl := none, sessionPath := "/tmp/sessions/2348140825959" } ∧
    (connectionUpdateHandler "s1" "/tmp/sessions/2348140825959" 7
        (.error "github down") .connOpen
        { registry := [("s1", { phoneNumber := "2348140825959", status := .waiting,
                                connectedAt := none, githubUrl := none,
                                sessionPath := "/tmp/sessions/2348140825959" })],
          fsDirs := ["/tmp/sessions/2348140825959"] }).fsDirs =
      ["/tmp/sessions/2348140825959"] ∧
    (sessionStatusHandler "GET" (some "s1")
        (connectionUpdateHandler "s1" "/tmp/sessions/2348140825959" 7
          (.error "github down") .connOpen
          { registry := [("s1", { phoneNumber := "2348140825959", status := .waiting,
                                  connectedAt := none, githubUrl := none,
                                  sessionPath := "/tmp/sessions/2348140825959" })],
            fsDirs := ["/tmp/sessions/2348140825959"] })).1.sessionStatus =
      some .connected ∧
    (sessionStatusHandler "GET" (some "s1")
        (connectionUpdateHandler "s1" "/tmp/sessions/2348140825959" 7
          (.error "github down") .connOpen
          { registry := [("s1", { phoneNumber := "2348140825959", status := .waiting,
                                  connectedAt := none, githubUrl := none,
                                  sessionPath := "/tmp/sessions/2348140825959" })],
            fsDirs := ["/tmp/sessions/2348140825959"] })).1.error = none :=
  C8_upload_failure_invisible "s1" "/tmp/sessions/2348140825959" 7 "github down"
    { registry := [("s1", { phoneNumber := "2348140825959", status := .waiting,
                            connectedAt := none, githubUrl := none,
                            sessionPath := "/tmp/sessions/2348140825959" })],
      fsDirs := ["/tmp/sessions/2348140825959"] }
    { phoneNumber := "2348140825959", status := .waiting, connectedAt := none,
      githubUrl := none, sessionPath := "/tmp/sessions/2348140825959" }
    rfl (by decide)

/-- C9: when the handle reports credentials not yet registered, the pairing code is
requested before `startPairing` returns and comes back formatted — the code split into
maximal groups of at most 4 characters joined by `"-"`, the groups reassembling the
raw code exactly; when credentials are already registered, the returned `pairingCode`
is absent (`none`). -/
theorem C9_pairing_code_issuance (phoneNumber code : String) (env : PairingEnv)
    (w : World) (hs : env.socketResult = .ok ()) :
    (env.credsRegistered = true →
      (startPairing phoneNumber env w).1 = .ok (sessionIdOf phoneNumber env.now, none)) ∧
    (env.credsRegistered = false → env.pairingCodeResult = .ok code →
      (startPairing phoneNumber env w).1 =
        .ok (sessionIdOf phoneNumber env.now, some (formatPairingCode code))) ∧
    (code ≠ "" →
      formatPairingCode code =
        String.intercalate "-" ((chunksOfFour code.data).map (fun c => String.mk c)) ∧
      (chunksOfFour code.data).flatten = code.data ∧
      ∀ c ∈ chunksOfFour code.data, c ≠ [] ∧ c.length ≤ 4) := by
  refine ⟨fun hc => by simp [startPairing, hs, hc], fun hc hp => by simp [startPairing, hs, hc, hp], fun hne => ?_⟩
  have hdata : code.data ≠ [] := by
    intro hd
    exact hne (String.ext hd)
  exact ⟨formatPairingCode_eq code hdata, chunksOfFour_flatten code.data,
    chunksOfFour_mem code.data⟩

/-- Witness for C9: a registered session gets no code; an unregistered one gets the
code `"ABCD1234"` formatted as `"ABCD-1234"`. -/
theorem C9_pairing_code_issuance_witness :
    (startPairing "2348140825959"
        { now := 3, credsRegistered := true, socketResult := .ok (),
          pairingCodeResult := .ok "ABCD1234" } { registry := [], fsDirs := [] }).1 =
      .ok (sessionIdOf "2348140825959" 3, none) ∧
    (startPairing "2348140825959"
        { now := 4, credsRegistered := false, socketResult := .ok (),
          pairingCodeResult := .ok "ABCD1234" } { registry := [], fsDirs := [] }).1 =
      .ok (sessionIdOf "2348140825959" 4, some "ABCD-1234") ∧
    formatPairingCode "ABCD1234" =
      String.intercalate "-" ((chunksOfFour "ABCD1234".data).map (fun c => String.mk c)) :=
  ⟨(C9_pairing_code_issuance "2348140825959" "ABCD1234"
      { now := 3, credsRegistered := true, socketResult := .ok (),
        pairingCodeResult := .ok "ABCD1234" } { registry := [], fsDirs := [] } rfl).1 rfl,
   (C9_pairing_code_issuance "2348140825959" "ABCD1234"
      { now := 4, credsRegistered := false, socketResult := .ok (),
        pairingCodeResult := .ok "ABCD1234" } { registry := [], fsDirs := [] } rfl).2.1
      rfl rfl,
   ((C9_pairing_code_issuance "2348140825959" "ABCD1234"
      { now := 4, credsRegistered := false, socketResult := .ok (),
        pairingCodeResult := .ok "ABCD1234" } { registry := [], fsDirs := [] } rfl).2.2
      (by decide)).1⟩

/-- C10: each of the three endpoints answers any HTTP method other than its single
supported one (POST for creation, GET for status and listing) with status 405 and an
error body, and leaves the world — in particular the Session Registry — unchanged. -/
theorem C10_method_mismatch (m1 m2 m3 : String) (body sessionId : Option String)
    (env : PairingEnv) (w : World) :
    (m1 ≠ "POST" →
      (sessionCreateHandler m1 body env w).1.status = 405 ∧
      (sessionCreateHandler m1 body env w).1.error = some "Method not allowed" ∧
      (sessionCreateHandler m1 body env w).2 = w) ∧
    (m2 ≠ "GET" →
      (sessionStatusHandler m2 sessionId w).1.status = 405 ∧
      (sessionStatusHandler m2 sessionId w).1.error = some "Method not allowed" ∧
      (sessionStatusHandler m2 sessionId w).2 = w) ∧
    (m3 ≠ "GET" →
      (sessionsListHandler m3 w).1.status = 405 ∧
      (sessionsListHandler m3 w).1.error = some "Method not allowed" ∧
      (sessionsListHandler m3 w).2 = w) := by
  refine ⟨fun h => ?_, fun h => ?_, fun h => ?_⟩
  · simp [sessionCreateHandler, h]
  · simp [sessionStatusHandler, h]
  · simp [sessionsListHandler, h]

/-- Witness for C10: `GET` on the creation endpoint, `POST` and `PUT` on the two read
endpoints, at a concrete non-empty world. -/
theorem C10_method_mismatch_witness :
    ((sessionCreateHandler "GET" (some "2348140825959")
        { now := 1, credsRegistered := false, socketResult := .ok (),
          pairingCodeResult := .ok "ABCD1234" }
        { registry := [("s1", { phoneNumber := "2348140825959", status := .waiting,
                                connectedAt := none, githubUrl := none,
                                sessionPath := "/tmp/sessions/2348140825959" })],
          fsDirs := [] }).1.status = 405 ∧
      (sessionCreateHandler "GET" (some "2348140825959")
        { now := 1, credsRegistered := false, socketResult := .ok (),
          pairingCodeResult := .ok "ABCD1234" }
        { registry := [("s1", { phoneNumber := "2348140825959", status := .waiting,
                                connectedAt := none, githubUrl := none,
                                sessionPath := "/tmp/sessions/2348140825959" })],
          fsDirs := [] }).1.error = some "Method not allowed" ∧
      (sessionCreateHandler "GET" (some "2348140825959")
        { now := 1, credsRegistered := false, socketResult := .ok (),
          pairingCodeResult := .ok "ABCD1234" }
        { registry := [("s1", { phoneNumber := "2348140825959", status := .waiting,
                                connectedAt := none, githubUrl := none,
                                sessionPath := "/tmp/sessions/2348140825959" })],
          fsDirs := [] }).2 =
        { registry := [("s1", { phoneNumber := "2348140825959", status := .waiting,
                                connectedAt := none, githubUrl := none,
                                sessionPath := "/tmp/sessions/2348140825959" })],
          fsDirs := [] }) ∧
    ((sessionStatusHandler "POST" (some "s1")
        { registry := [], fsDirs := [] }).1.status = 405 ∧
      (sessionStatusHandler "POST" (some "s1")
        { registry := [], fsDirs := [] }).1.error = some "Method not allowed" ∧
      (sessionStatusHandler "POST" (some "s1")
        { registry := [], fsDirs := [] }).2 = { registry := [], fsDirs := [] }) ∧
    ((sessionsListHandler "PUT" { registry := [], fsDirs := [] }).1.status = 405 ∧
      (sessionsListHandler "PUT" { registry := [], fsDirs := [] }).1.error =
        some "Method not allowed" ∧
      (sessionsListHandler "PUT" { registry := [], fsDirs := [] }).2 =
        { registry := [], fsDirs := [] }) := by
  have h := C10_method_mismatch "GET" "POST" "PUT" (some "2348140825959") (some "s1")
    { now := 1, credsRegistered := false, socketResult := .ok (),
      pairingCodeResult := .ok "ABCD1234" }
    { registry := [("s1", { phoneNumber := "2348140825959", status := .waiting,
                            connectedAt := none, githubUrl := none,
                            sessionPath := "/tmp/sessions/2348140825959" })],
      fsDirs := [] }
  have h2 := C10_method_mismatch "GET" "POST" "PUT" (some "2348140825959") (some "s1")
    { now := 1, credsRegistered := false, socketResult := .ok (),
      pairingCodeResult := .ok "ABCD1234" } { registry := [], fsDirs := [] }
  exact ⟨h.1 (by decide), h2.2.1 (by decide), h2.2.2 (by decide)⟩

end Web2
